import Mathlib

/-!
Verification of the pipeline logic of `medical_compliance_agent.py`: a four-stage
LangGraph pipeline (planner, data loader, audit coordinator, report compiler)
threaded over a single blackboard state.  Text is embedded as `List Char`; the
Python string operations used by the program (`in`, `replace`, `strip`, `lower`,
`split(",")`, `join`) are embedded as executable functions on character lists.
External effects (LLM completion calls, the AutoGen group-chat scheduler, file
reads, stdin) are parameters of the embedded stage functions.
-/

set_option maxRecDepth 8000

namespace MedCompliance

/-- Text is modelled as a list of characters. -/
abbrev Str := List Char

/-- Python substring test `pat in s`. -/
def containsTok (pat : Str) : Str → Bool
  | [] => pat.isEmpty
  | c :: cs => pat.isPrefixOf (c :: cs) || containsTok pat cs

/-- Fuelled worker for Python `str.replace`: replaces non-overlapping occurrences
of `pat` by `rep` left to right.  Each step consumes at least one character of the
input, so fuel equal to the input length always suffices. -/
def replaceFuel (pat rep : Str) : Nat → Str → Str
  | _, [] => []
  | 0, s => s
  | fuel + 1, c :: cs =>
    if pat ≠ [] ∧ pat.isPrefixOf (c :: cs) = true then
      rep ++ replaceFuel pat rep fuel ((c :: cs).drop pat.length)
    else
      c :: replaceFuel pat rep fuel cs

/-- Python `s.replace(pat, rep)`. -/
def pyReplace (s pat rep : Str) : Str := replaceFuel pat rep s.length s

/-- Python `s.strip()`: drop whitespace from both ends. -/
def pyStrip (s : Str) : Str :=
  List.rdropWhile Char.isWhitespace (List.dropWhile Char.isWhitespace s)

/-- Python `s.lower()` (ASCII case folding suffices for the strings involved). -/
def pyLower (s : Str) : Str := s.map Char.toLower

/-- One turn of the audit group conversation: the speaking agent's name and the
message text, mirroring the `name`/`content` entries of an AutoGen chat-history
message. -/
structure Msg where
  name : Str
  content : Str
deriving DecidableEq

/-- The fixed completion sentinel scanned for by `autogen_auditor_node`. -/
def SENTINEL : Str := "AUDIT_COMPLETE".data

/-- The literal fallback used when no message carries the sentinel. -/
def NO_SUMMARY : Str := "No summary found.".data

/-- `next((msg['content'] for msg in reversed(chat_result.chat_history)
if "AUDIT_COMPLETE" in msg['content']), "No summary found.")` from
`autogen_auditor_node`. -/
def finalSummaryMsg (chat_history : List Msg) : Str :=
  match chat_history.reverse.find? (fun msg => containsTok SENTINEL msg.content) with
  | some msg => msg.content
  | none => NO_SUMMARY

/-- One entry of `audit_findings`. -/
structure Finding where
  stage : Str
  details : Str
deriving DecidableEq

/-- The finding built by `autogen_auditor_node`:
`{"stage": "Stage 2 Audit Loop",
"details": final_summary_msg.replace("AUDIT_COMPLETE", "").strip()}`. -/
def auditorFinding (chat_history : List Msg) : Finding :=
  { stage := "Stage 2 Audit Loop".data
    details := pyStrip (pyReplace (finalSummaryMsg chat_history) SENTINEL []) }

/-- Python `s.split(",")` (empty pieces are kept; the result is never empty). -/
def splitComma : Str → List Str
  | [] => [[]]
  | c :: cs =>
    let r := splitComma cs
    if c = ',' then [] :: r
    else (c :: r.headD []) :: r.tail

/-- `[s.strip() for s in result.content.split(",")]` from `orchestrator_planner_node`;
`classification` is the raw text returned by the external completion call. -/
def plannerStandards (classification : Str) : List Str :=
  (splitComma classification).map pyStrip

/-- The document table built by `data_loading_node`: membership tests of the three
marker substrings against `impacted_standards` gate the three keys.  `srsDoc` and
`rmfDoc` stand for the outputs of the two external document-generation calls; the
QMS value is the literal placeholder, made with no external call. -/
def dataLoadingDocs (standards : List Str) (srsDoc rmfDoc : Str) : List (Str × Str) :=
  (if standards.any (fun s => containsTok "62304".data s) then
    [("SRS".data, srsDoc)] else [])
  ++ (if standards.any (fun s => containsTok "14971".data s) then
    [("RMF".data, rmfDoc)] else [])
  ++ (if standards.any (fun s => containsTok "13485".data s) then
    [("QMS".data, "QMS documentation placeholder".data)] else [])

/-- The `try/except FileNotFoundError` of `data_loading_node`: `fileContent` is
`some text` when the technical-specification file exists and `none` when it is
absent, in which case the user request is substituted. -/
def technicalInputFallback (fileContent : Option Str) (user_request : Str) : Str :=
  match fileContent with
  | some text => text
  | none => user_request

/-- `f"Technical Specification:\n{technical_input}\n\nUser Request:\n{state['user_request']}"`
from `data_loading_node`. -/
def combinedInput (technical_input user_request : Str) : Str :=
  "Technical Specification:\n".data ++ technical_input
    ++ "\n\nUser Request:\n".data ++ user_request

/-- The blackboard record `ComplianceState` threaded through all stages. -/
structure ComplianceState where
  user_request : Str
  impacted_standards : List Str
  loaded_documents : List (Str × Str)
  audit_findings : List Finding
  final_report_content : Str
  messages : List Msg
deriving DecidableEq

/-- State update of `orchestrator_planner_node`: writes `impacted_standards` only. -/
def plannerUpdate (classification : Str) (s : ComplianceState) : ComplianceState :=
  { s with impacted_standards := plannerStandards classification }

/-- State update of `data_loading_node`: writes `loaded_documents` only.  `srsGen`
and `rmfGen` stand for the two external document-generation calls, each applied to
the combined technical-specification/user-request input. -/
def loaderUpdate (fileContent : Option Str) (srsGen rmfGen : Str → Str)
    (s : ComplianceState) : ComplianceState :=
  let combined :=
    combinedInput (technicalInputFallback fileContent s.user_request) s.user_request
  { s with loaded_documents :=
      dataLoadingDocs s.impacted_standards (srsGen combined) (rmfGen combined) }

/-- State update of `autogen_auditor_node`: writes `audit_findings` and appends one
message to the (operator.add-reduced) message log; `chat_history` is the transcript
produced by the external group chat. -/
def auditorUpdate (chat_history : List Msg) (s : ComplianceState) : ComplianceState :=
  { s with audit_findings := [auditorFinding chat_history]
           messages := s.messages ++ [⟨"human".data, finalSummaryMsg chat_history⟩] }

/-- The report template of `report_compiler_node`, transcribed literally. -/
def reportContent (s : ComplianceState) : Str :=
  "\n# Medical Device Compliance Audit Report\n\n**Date:** 2026-01-27\n**Trigger:** User Request - \"".data
  ++ s.user_request
  ++ "\"\n**Scope:** ".data
  ++ List.intercalate ", ".data s.impacted_standards
  ++ "\n\n## Executive Summary\nAn audit was conducted on the updated technical documentation. Below are the findings from the automated specialist agents.\n\n## Audit Findings Summary\n\n".data
  ++ List.intercalate "\n".data (s.audit_findings.map (fun f => "- ".data ++ f.details))
  ++ "\n\n## Next Actions\nReview NON-COMPLIANT items and initiate CAPA (Corrective and Preventive Action) process if necessary. Update documentation before submission.\n    ".data

/-- State update of `report_compiler_node`: writes `final_report_content` only. -/
def compilerUpdate (s : ComplianceState) : ComplianceState :=
  { s with final_report_content := reportContent s }

/-- Modelled from the spec: the round-robin group-chat scheduler is external
(AutoGen's `GroupChat`/`GroupChatManager`, not part of this repository); its
contract is that, given a round budget, it appends turns one at a time and stops
at budget exhaustion or as soon as the termination predicate holds of a turn's
text.  `respond` stands for the scheduler's choice of next speaker and that
speaker's generated message. -/
def runGroupChat (respond : List Msg → Msg) (is_termination : Str → Bool) :
    Nat → List Msg → List Msg
  | 0, transcript => transcript
  | budget + 1, transcript =>
    let m := respond transcript
    if is_termination m.content then transcript ++ [m]
    else runGroupChat respond is_termination budget (transcript ++ [m])

/-- The round budget passed to the group chat (`max_round=4`). -/
def max_round : Nat := 4

/-- Observable outcome of one iteration of the `__main__` read loop. -/
inductive CliResult where
  | exited : CliResult
  | skipped : CliResult
  | ran : Str → Str → CliResult
deriving DecidableEq

/-- The stdout framing printed around a pipeline run's final report: a heading
banner of 16 equals signs on each side of the title, and a closing rule of 56
equals signs. -/
def framedReport (final_report_content : Str) : Str :=
  "\n\n".data ++ List.replicate 16 '=' ++ " GENERATED FINAL REPORT ".data
  ++ List.replicate 16 '=' ++ "\n\n".data
  ++ final_report_content
  ++ "\n".data ++ List.replicate 56 '=' ++ "\n\n".data

/-- One iteration of the `__main__` read loop: strip the raw line, recognise
`quit`/`exit` case-insensitively, re-prompt on empty input, otherwise run the
pipeline (abstracted as `pipeline`) exactly once and print the framed report. -/
def cliIterate (pipeline : Str → Str) (raw : Str) : CliResult :=
  let user_input := pyStrip raw
  if pyLower user_input = "quit".data ∨ pyLower user_input = "exit".data then
    CliResult.exited
  else if user_input = [] then
    CliResult.skipped
  else
    CliResult.ran user_input (framedReport (pipeline user_input))

/-! ## Helper lemmas -/

theorem splitComma_ne_nil (s : Str) : splitComma s ≠ [] := by
  cases s with
  | nil => simp [splitComma]
  | cons c cs =>
    simp only [splitComma]
    split <;> simp

theorem pyStrip_idem (s : Str) : pyStrip (pyStrip s) = pyStrip s := by
  unfold pyStrip
  have hdw : List.dropWhile Char.isWhitespace
      (List.dropWhile Char.isWhitespace s) = List.dropWhile Char.isWhitespace s :=
    List.dropWhile_idempotent _ _
  have hfront : List.dropWhile Char.isWhitespace
      (List.rdropWhile Char.isWhitespace (List.dropWhile Char.isWhitespace s))
      = List.rdropWhile Char.isWhitespace (List.dropWhile Char.isWhitespace s) := by
    rw [List.dropWhile_eq_self_iff]
    intro hl
    have hpre :=
      List.rdropWhile_prefix Char.isWhitespace (List.dropWhile Char.isWhitespace s)
    have hlen : 0 < (List.dropWhile Char.isWhitespace s).length :=
      Nat.lt_of_lt_of_le hl hpre.length_le
    have hget := (List.dropWhile_eq_self_iff.mp hdw) hlen
    simp only [List.get_eq_getElem] at hget ⊢
    rw [hpre.getElem hl]
    exact hget
  rw [hfront, List.rdropWhile_idempotent]

theorem containsTok_nil_pat (s : Str) : containsTok [] s = true := by
  induction s with
  | nil => rfl
  | cons c cs ih => simp [containsTok, ih]

theorem containsTok_append_left (pat l r : Str) (h : containsTok pat l = true) :
    containsTok pat (l ++ r) = true := by
  induction l with
  | nil =>
    simp only [containsTok, List.isEmpty_iff] at h
    subst h
    simp [containsTok_nil_pat r]
  | cons c cs ih =>
    simp only [containsTok, Bool.or_eq_true] at h
    rcases h with h | h
    · simp only [List.cons_append, containsTok, Bool.or_eq_true]
      left
      rw [List.isPrefixOf_iff_prefix] at h ⊢
      exact h.trans (List.prefix_append (c :: cs) r)
    · simp only [List.cons_append, containsTok, Bool.or_eq_true]
      right
      exact ih h

theorem runGroupChat_length_le (respond : List Msg → Msg) (is_termination : Str → Bool)
    (budget : Nat) (transcript : List Msg) :
    (runGroupChat respond is_termination budget transcript).length
      ≤ transcript.length + budget := by
  induction budget generalizing transcript with
  | zero => simp [runGroupChat]
  | succ b ih =>
    simp only [runGroupChat]
    split
    · simp only [List.length_append, List.length_cons, List.length_nil]
      omega
    · calc (runGroupChat respond is_termination b
            (transcript ++ [respond transcript])).length
          ≤ (transcript ++ [respond transcript]).length + b := ih _
      _ = transcript.length + (b + 1) := by
          simp only [List.length_append, List.length_cons, List.length_nil]
          omega

/-! ## Claims -/

/-- C1: for every audit transcript in which at least one message contains the
sentinel `AUDIT_COMPLETE`, the extracted findings summary equals the text of the
most recent sentinel-bearing message with the sentinel substring stripped and
surrounding whitespace trimmed, regardless of which role produced it; earlier
sentinel-bearing messages are ignored. -/
theorem claim_C1 (l₁ l₂ : List Msg) (m : Msg)
    (hm : containsTok SENTINEL m.content = true)
    (hl₂ : ∀ m' ∈ l₂, containsTok SENTINEL m'.content = false) :
    (auditorFinding (l₁ ++ m :: l₂)).details
      = pyStrip (pyReplace m.content SENTINEL []) := by
  have h2 : l₂.reverse.find? (fun msg => containsTok SENTINEL msg.content) = none := by
    rw [List.find?_eq_none]
    intro x hx
    rw [List.mem_reverse] at hx
    simp [hl₂ x hx]
  have hfind : (l₁ ++ m :: l₂).reverse.find?
      (fun msg => containsTok SENTINEL msg.content) = some m := by
    rw [List.reverse_append, List.reverse_cons, List.append_assoc,
      List.find?_append, h2]
    simp [hm]
  simp only [auditorFinding, finalSummaryMsg, hfind]

/-- Witness for C1: a three-turn transcript whose middle message carries the
sentinel and whose last message does not; the earlier sentinel-bearing first
message is ignored and the middle one is chosen, stripped and trimmed. -/
theorem claim_C1_witness :
    (auditorFinding
      [⟨"IEC62304_Auditor".data, "draft AUDIT_COMPLETE".data⟩,
       ⟨"ISO14971_Auditor".data, "  findings: COMPLIANT AUDIT_COMPLETE ".data⟩,
       ⟨"ISO13485_Auditor".data, "tail remarks".data⟩]).details
      = "findings: COMPLIANT".data := by
  have h := claim_C1
    [⟨"IEC62304_Auditor".data, "draft AUDIT_COMPLETE".data⟩]
    [⟨"ISO13485_Auditor".data, "tail remarks".data⟩]
    ⟨"ISO14971_Auditor".data, "  findings: COMPLIANT AUDIT_COMPLETE ".data⟩
    (by decide) (by decide)
  exact h.trans (by decide)

/-- C2: for every audit transcript in which no message contains the sentinel, the
coordinator does not fail: the extracted summary is the literal fallback
`No summary found.`, silently accepted and recorded as the appended finding's
details. -/
theorem claim_C2 (chat_history : List Msg)
    (h : ∀ msg ∈ chat_history, containsTok SENTINEL msg.content = false) :
    (auditorFinding chat_history).details = "No summary found.".data
    ∧ ∀ s : ComplianceState, (auditorUpdate chat_history s).audit_findings
        = [⟨"Stage 2 Audit Loop".data, "No summary found.".data⟩] := by
  have hfind : chat_history.reverse.find?
      (fun msg => containsTok SENTINEL msg.content) = none := by
    rw [List.find?_eq_none]
    intro x hx
    rw [List.mem_reverse] at hx
    simp [h x hx]
  have hsum : finalSummaryMsg chat_history = NO_SUMMARY := by
    simp [finalSummaryMsg, hfind]
  have hfinding : auditorFinding chat_history
      = ⟨"Stage 2 Audit Loop".data, "No summary found.".data⟩ := by
    simp only [auditorFinding, hsum]
    decide
  exact ⟨by rw [hfinding], fun s => by simp only [auditorUpdate, hfinding]⟩

/-- Witness for C2: a synthetic four-turn transcript with no sentinel yields the
literal fallback as the finding's details. -/
theorem claim_C2_witness :
    (auditorFinding
      [⟨"Compliance_Manager".data, "please audit".data⟩,
       ⟨"IEC62304_Auditor".data, "reviewing clauses 5-9".data⟩,
       ⟨"ISO14971_Auditor".data, "risk file looks fine".data⟩,
       ⟨"ISO13485_Auditor".data, "QMS procedures followed".data⟩]).details
      = "No summary found.".data :=
  (claim_C2
    [⟨"Compliance_Manager".data, "please audit".data⟩,
     ⟨"IEC62304_Auditor".data, "reviewing clauses 5-9".data⟩,
     ⟨"ISO14971_Auditor".data, "risk file looks fine".data⟩,
     ⟨"ISO13485_Auditor".data, "QMS procedures followed".data⟩]
    (by decide)).1

/-- C3: the loaded-document keys are exactly those of the fixed enumeration
{SRS, RMF, QMS} whose marker substring (62304, 14971, 13485) occurs in some
element of `impacted_standards`; no marker yields an empty mapping, all three
markers yield all three keys, and the QMS value is the static placeholder,
independent of the external document-generation outputs. -/
theorem claim_C3 (standards : List Str) (srsDoc rmfDoc : Str) :
    (∀ k : Str, k ∈ (dataLoadingDocs standards srsDoc rmfDoc).map Prod.fst ↔
      ((k = "SRS".data ∧ standards.any (fun s => containsTok "62304".data s) = true)
      ∨ (k = "RMF".data ∧ standards.any (fun s => containsTok "14971".data s) = true)
      ∨ (k = "QMS".data ∧ standards.any (fun s => containsTok "13485".data s) = true)))
    ∧ ((∀ s ∈ standards, containsTok "62304".data s = false
          ∧ containsTok "14971".data s = false ∧ containsTok "13485".data s = false) →
        dataLoadingDocs standards srsDoc rmfDoc = [])
    ∧ ((standards.any (fun s => containsTok "62304".data s) = true
          ∧ standards.any (fun s => containsTok "14971".data s) = true
          ∧ standards.any (fun s => containsTok "13485".data s) = true) →
        (dataLoadingDocs standards srsDoc rmfDoc).map Prod.fst
          = ["SRS".data, "RMF".data, "QMS".data])
    ∧ (List.lookup "QMS".data (dataLoadingDocs standards srsDoc rmfDoc)
        = if standards.any (fun s => containsTok "13485".data s) then
            some "QMS documentation placeholder".data
          else none) := by
  refine ⟨?_, ?_, ?_, ?_⟩
  · intro k
    rcases h62 : standards.any (fun s => containsTok "62304".data s) <;>
      rcases h14 : standards.any (fun s => containsTok "14971".data s) <;>
        rcases h13 : standards.any (fun s => containsTok "13485".data s) <;>
          simp [dataLoadingDocs, h62, h14, h13]
  · intro hnone
    have h62 : standards.any (fun s => containsTok "62304".data s) = false := by
      simp only [List.any_eq_false]
      intro s hs
      simp [(hnone s hs).1]
    have h14 : standards.any (fun s => containsTok "14971".data s) = false := by
      simp only [List.any_eq_false]
      intro s hs
      simp [(hnone s hs).2.1]
    have h13 : standards.any (fun s => containsTok "13485".data s) = false := by
      simp only [List.any_eq_false]
      intro s hs
      simp [(hnone s hs).2.2]
    simp [dataLoadingDocs, h62, h14, h13]
  · intro ⟨h62, h14, h13⟩
    simp [dataLoadingDocs, h62, h14, h13]
  · rcases h62 : standards.any (fun s => containsTok "62304".data s) <;>
      rcases h14 : standards.any (fun s => containsTok "14971".data s) <;>
        rcases h13 : standards.any (fun s => containsTok "13485".data s) <;>
          simp [dataLoadingDocs, h62, h14, h13, List.lookup]

/-- Witness for C3: a standards list matching no marker yields no documents; one
matching all three markers yields exactly the keys SRS, RMF, QMS. -/
theorem claim_C3_witness :
    dataLoadingDocs ["FDA 21 CFR 820".data] "doc1".data "doc2".data = []
    ∧ (dataLoadingDocs ["IEC 62304".data, "ISO 14971".data, "ISO 13485".data]
        "doc1".data "doc2".data).map Prod.fst
      = ["SRS".data, "RMF".data, "QMS".data] :=
  ⟨(claim_C3 ["FDA 21 CFR 820".data] "doc1".data "doc2".data).2.1 (by decide),
   (claim_C3 ["IEC 62304".data, "ISO 14971".data, "ISO 13485".data]
      "doc1".data "doc2".data).2.2.1 (by decide)⟩

/-- C4 as claimed is false: when the technical-specification file is absent the
request text is substituted, but the combined input passed to document generation
is the fixed wrapper template, not the raw `user_request` itself. -/
theorem claim_C4_counterexample :
    ¬ (combinedInput (technicalInputFallback none "Add a Bluetooth module".data)
        "Add a Bluetooth module".data
      = "Add a Bluetooth module".data) := by
  decide

/-- C4 (amended): if the technical-specification file is absent the loader
recovers without failing — the substituted technical input equals the raw
`user_request`, and the combined input passed to each document-generation call is
the fixed template embedding the raw request twice; it never equals the raw
request itself. -/
theorem claim_C4 (user_request : Str) :
    technicalInputFallback none user_request = user_request
    ∧ combinedInput (technicalInputFallback none user_request) user_request
      = "Technical Specification:\n".data ++ user_request
        ++ "\n\nUser Request:\n".data ++ user_request
    ∧ combinedInput (technicalInputFallback none user_request) user_request
      ≠ user_request := by
  refine ⟨rfl, rfl, fun h => ?_⟩
  have hlen := congrArg List.length h
  simp only [combinedInput, technicalInputFallback, List.length_append,
    List.length_cons, List.length_nil] at hlen
  omega

/-- C5: the audit group conversation stops after at most `max_round = 4` turns,
whatever the speakers say and whatever the termination predicate is; the budget
is a hard cap, and on exhaustion without a sentinel the loop still ends with the
transcript built so far. -/
theorem claim_C5 (respond : List Msg → Msg) (is_termination : Str → Bool) :
    (runGroupChat respond is_termination max_round []).length ≤ 4
    ∧ ∀ (budget : Nat) (transcript : List Msg),
        (runGroupChat respond is_termination budget transcript).length
          ≤ transcript.length + budget := by
  refine ⟨?_, fun budget transcript => runGroupChat_length_le _ _ _ _⟩
  have h := runGroupChat_length_le respond is_termination max_round []
  simpa [max_round] using h

/-- C6: for every non-empty `user_request`, the planner output is the non-empty
list of whitespace-trimmed pieces of the raw classification text split on commas,
with no validation of the pieces (each element is already trimmed, and any
classification text — empty or garbage — is accepted). -/
theorem claim_C6 (user_request classification : Str) (h : user_request ≠ []) :
    plannerStandards classification ≠ []
    ∧ plannerStandards classification = (splitComma classification).map pyStrip
    ∧ ∀ x ∈ plannerStandards classification, pyStrip x = x := by
  refine ⟨?_, rfl, ?_⟩
  · simp only [plannerStandards, ne_eq, List.map_eq_nil_iff]
    exact splitComma_ne_nil classification
  · intro x hx
    simp only [plannerStandards, List.mem_map] at hx
    obtain ⟨y, _, rfl⟩ := hx
    exact pyStrip_idem y

/-- Witness for C6: a concrete classification response is split and trimmed into
a non-empty standards list. -/
theorem claim_C6_witness :
    plannerStandards "IEC 62304, ISO 14971".data ≠ []
    ∧ plannerStandards "IEC 62304, ISO 14971".data
      = ["IEC 62304".data, "ISO 14971".data] :=
  ⟨(claim_C6 "Add a Bluetooth module".data "IEC 62304, ISO 14971".data
      (by decide)).1,
   by decide⟩

/-- C7: single-writer discipline — each stage update writes only its own fields:
the planner writes only `impacted_standards`, the loader only `loaded_documents`,
the coordinator only `audit_findings` and the message log, the compiler only
`final_report_content`; `user_request` is never written by any stage. -/
theorem claim_C7 (classification : Str) (fileContent : Option Str)
    (srsGen rmfGen : Str → Str) (chat_history : List Msg) (s : ComplianceState) :
    ((plannerUpdate classification s).user_request = s.user_request
      ∧ (plannerUpdate classification s).loaded_documents = s.loaded_documents
      ∧ (plannerUpdate classification s).audit_findings = s.audit_findings
      ∧ (plannerUpdate classification s).final_report_content = s.final_report_content
      ∧ (plannerUpdate classification s).messages = s.messages)
    ∧ ((loaderUpdate fileContent srsGen rmfGen s).user_request = s.user_request
      ∧ (loaderUpdate fileContent srsGen rmfGen s).impacted_standards
          = s.impacted_standards
      ∧ (loaderUpdate fileContent srsGen rmfGen s).audit_findings = s.audit_findings
      ∧ (loaderUpdate fileContent srsGen rmfGen s).final_report_content
          = s.final_report_content
      ∧ (loaderUpdate fileContent srsGen rmfGen s).messages = s.messages)
    ∧ ((auditorUpdate chat_history s).user_request = s.user_request
      ∧ (auditorUpdate chat_history s).impacted_standards = s.impacted_standards
      ∧ (auditorUpdate chat_history s).loaded_documents = s.loaded_documents
      ∧ (auditorUpdate chat_history s).final_report_content
          = s.final_report_content)
    ∧ ((compilerUpdate s).user_request = s.user_request
      ∧ (compilerUpdate s).impacted_standards = s.impacted_standards
      ∧ (compilerUpdate s).loaded_documents = s.loaded_documents
      ∧ (compilerUpdate s).audit_findings = s.audit_findings
      ∧ (compilerUpdate s).messages = s.messages) :=
  ⟨⟨rfl, rfl, rfl, rfl, rfl⟩, ⟨rfl, rfl, rfl, rfl, rfl⟩,
   ⟨rfl, rfl, rfl, rfl⟩, ⟨rfl, rfl, rfl, rfl, rfl⟩⟩

/-- C8: the report compiler is a pure, deterministic function of `user_request`,
`impacted_standards` and `audit_findings` only — states agreeing on those three
fields yield byte-identical reports — and the only date in play is the fixed
literal `2026-01-27`, which occurs in every report. -/
theorem claim_C8 (s₁ s₂ : ComplianceState)
    (hu : s₁.user_request = s₂.user_request)
    (hi : s₁.impacted_standards = s₂.impacted_standards)
    (ha : s₁.audit_findings = s₂.audit_findings) :
    reportContent s₁ = reportContent s₂
    ∧ (compilerUpdate s₁).final_report_content
        = (compilerUpdate s₂).final_report_content
    ∧ containsTok "2026-01-27".data (reportContent s₁) = true := by
  have hrep : reportContent s₁ = reportContent s₂ := by
    simp only [reportContent, hu, hi, ha]
  refine ⟨hrep, hrep, ?_⟩
  simp only [reportContent]
  apply containsTok_append_left
  apply containsTok_append_left
  apply containsTok_append_left
  apply containsTok_append_left
  apply containsTok_append_left
  apply containsTok_append_left
  decide

/-- Witness for C8: two states that agree on the three report inputs but differ
in loaded documents, message log and prior report content produce identical
reports, and the report carries the fixed literal date. -/
theorem claim_C8_witness :
    reportContent
      ⟨"Add a Bluetooth module".data, ["IEC 62304".data], [], [⟨"s".data, "COMPLIANT".data⟩], [], []⟩
    = reportContent
      ⟨"Add a Bluetooth module".data, ["IEC 62304".data], [("SRS".data, "doc".data)],
        [⟨"s".data, "COMPLIANT".data⟩], "stale".data, [⟨"human".data, "hi".data⟩]⟩
    ∧ containsTok "2026-01-27".data (reportContent
      ⟨"Add a Bluetooth module".data, ["IEC 62304".data], [], [⟨"s".data, "COMPLIANT".data⟩], [], []⟩)
      = true :=
  ⟨(claim_C8 _ _ rfl rfl rfl).1, (claim_C8 _
    ⟨"Add a Bluetooth module".data, ["IEC 62304".data], [], [⟨"s".data, "COMPLIANT".data⟩], [], []⟩
    rfl rfl rfl).2.2⟩

/-- C9: one iteration of the CLI read loop exits exactly when the stripped input
lower-cases to `quit` or `exit` (no distinction between the two), silently
re-prompts exactly when the stripped input is otherwise empty, and otherwise runs
the pipeline exactly once on the stripped input, printing the report framed by
the fixed delimiter banners. -/
theorem claim_C9 (pipeline : Str → Str) (raw : Str) :
    (cliIterate pipeline raw = CliResult.exited ↔
      (pyLower (pyStrip raw) = "quit".data ∨ pyLower (pyStrip raw) = "exit".data))
    ∧ (cliIterate pipeline raw = CliResult.skipped ↔
      (¬ (pyLower (pyStrip raw) = "quit".data ∨ pyLower (pyStrip raw) = "exit".data)
        ∧ pyStrip raw = []))
    ∧ (∀ req out, cliIterate pipeline raw = CliResult.ran req out →
        req = pyStrip raw ∧ out = framedReport (pipeline (pyStrip raw)))
    ∧ (¬ (pyLower (pyStrip raw) = "quit".data ∨ pyLower (pyStrip raw) = "exit".data) →
        pyStrip raw ≠ [] →
        cliIterate pipeline raw
          = CliResult.ran (pyStrip raw) (framedReport (pipeline (pyStrip raw)))) := by
  by_cases h1 : pyLower (pyStrip raw) = "quit".data ∨ pyLower (pyStrip raw) = "exit".data
  · simp [cliIterate, h1]
  · by_cases h2 : pyStrip raw = []
    · simp [cliIterate, h1, h2, pyLower]
    · simp [cliIterate, h1, h2]

/-- Witness for C9: a padded, mixed-case `Exit` terminates the loop. -/
theorem claim_C9_witness :
    cliIterate (fun r => framedReport r) "  Exit ".data = CliResult.exited :=
  ((claim_C9 (fun r => framedReport r) "  Exit ".data).1).mpr (by decide)

/-- C10: the CLI strips each input line before any check: an iteration behaves
exactly as it would on the stripped line, a whitespace-only input is treated as
empty and silently re-prompted, and a whitespace-padded `QUIT` still exits. -/
theorem claim_C10 (pipeline : Str → Str) (raw : Str) :
    cliIterate pipeline raw = cliIterate pipeline (pyStrip raw)
    ∧ ((∀ c ∈ raw, c.isWhitespace = true) → cliIterate pipeline raw = CliResult.skipped)
    ∧ cliIterate pipeline "  QUIT  ".data = CliResult.exited := by
  refine ⟨?_, ?_, ?_⟩
  · simp only [cliIterate, pyStrip_idem]
  · intro hws
    have hnil : pyStrip raw = [] := by
      simp only [pyStrip]
      rw [List.dropWhile_eq_nil_iff.mpr fun x hx => hws x hx]
      exact List.rdropWhile_nil _
    rw [show cliIterate pipeline raw
        = cliIterate pipeline (pyStrip raw) from by simp only [cliIterate, pyStrip_idem]]
    rw [hnil]
    simp [cliIterate, pyStrip, pyLower]
  · have hq : pyLower (pyStrip "  QUIT  ".data) = "quit".data := by decide
    simp [cliIterate, hq]

/-- Witness for C10: a whitespace-only line is silently re-prompted without a
pipeline run. -/
theorem claim_C10_witness :
    cliIterate (fun r => framedReport r) "   ".data = CliResult.skipped :=
  (claim_C10 (fun r => framedReport r) "   ".data).2.1 (by decide)

end MedCompliance
